import Mathlib

/-!
# Verification of the prospectimo temporal-orientation engine

Shallow embedding of the prospectimo repository (phugh/prospectimo).
The repository ships several versions of the same engine:

* `src/index.js` holds v2.0.0 (the current entry point) followed by v0.4.0
  (which contains the in-repo `getMatches` and `calcLex` that the claims cite);
* `src/unnamed/part_001` is v0.1.1, `part_002` is v0.0.1, `part_003` is
  v0.3.0, `part_004` is v0.2.0, `part_000` is the v2.0.0 README.

JavaScript numbers are modelled by `JSNum`: exact rationals for finite
values plus the IEEE special values `Infinity`, `-Infinity` and `NaN`,
with the arithmetic rules JS uses for them (no rounding is modelled; the
engine's arithmetic on finite values is exact rational arithmetic here).
Fallible results (JS `null`) are modelled with `Option`.
-/

/-- A JavaScript number: a finite rational, `Infinity`, `-Infinity` or `NaN`. -/
inductive JSNum where
  | fin (q : ℚ)
  | posInf
  | negInf
  | nan
deriving DecidableEq

namespace JSNum

/-- JS addition on `JSNum` (IEEE rules for the special values). -/
def add : JSNum → JSNum → JSNum
  | nan, _ => nan
  | _, nan => nan
  | posInf, negInf => nan
  | negInf, posInf => nan
  | posInf, _ => posInf
  | _, posInf => posInf
  | negInf, _ => negInf
  | _, negInf => negInf
  | fin a, fin b => fin (a + b)

/-- JS multiplication on `JSNum` (IEEE rules; `Infinity * 0 = NaN`). -/
def mul : JSNum → JSNum → JSNum
  | nan, _ => nan
  | _, nan => nan
  | posInf, posInf => posInf
  | posInf, negInf => negInf
  | negInf, posInf => negInf
  | negInf, negInf => posInf
  | posInf, fin b => if b = 0 then nan else if 0 < b then posInf else negInf
  | fin a, posInf => if a = 0 then nan else if 0 < a then posInf else negInf
  | negInf, fin b => if b = 0 then nan else if 0 < b then negInf else posInf
  | fin a, negInf => if a = 0 then nan else if 0 < a then negInf else posInf
  | fin a, fin b => fin (a * b)

/-- JS division on `JSNum`; dividing a nonzero finite value by zero yields a
signed infinity and `0 / 0 = NaN`, exactly as in JavaScript. -/
def div : JSNum → JSNum → JSNum
  | nan, _ => nan
  | _, nan => nan
  | posInf, posInf => nan
  | posInf, negInf => nan
  | negInf, posInf => nan
  | negInf, negInf => nan
  | posInf, fin b => if 0 ≤ b then posInf else negInf
  | negInf, fin b => if 0 ≤ b then negInf else posInf
  | fin _, posInf => fin 0
  | fin _, negInf => fin 0
  | fin a, fin b =>
      if b = 0 then (if a = 0 then nan else if 0 < a then posInf else negInf)
      else fin (a / b)

/-- JS strict greater-than on `JSNum` (`NaN` compares false to everything). -/
def jgt : JSNum → JSNum → Bool
  | nan, _ => false
  | _, nan => false
  | posInf, posInf => false
  | posInf, _ => true
  | _, posInf => false
  | negInf, _ => false
  | fin _, negInf => true
  | fin a, fin b => decide (b < a)

/-- JS strict less-than on `JSNum`. -/
def jlt (a b : JSNum) : Bool := jgt b a

/-- JS less-or-equal on `JSNum` (`NaN` compares false to everything). -/
def jle : JSNum → JSNum → Bool
  | nan, _ => false
  | _, nan => false
  | _, posInf => true
  | posInf, _ => false
  | negInf, _ => true
  | fin _, negInf => false
  | fin a, fin b => decide (a ≤ b)

/-- Whether a `JSNum` is a finite number. -/
def isFinite : JSNum → Bool
  | fin _ => true
  | _ => false

/-- Printing of a `JSNum`; mirrors how JS stringifies these values. -/
def toString : JSNum → String
  | fin q => ToString.toString q
  | posInf => "Infinity"
  | negInf => "-Infinity"
  | nan => "NaN"

end JSNum

/-- The fixed PAST intercept of the model (`src/index.js` line 88 and every
older version). -/
def pastIntercept : ℚ := -0.649406376419

/-- The fixed PRESENT intercept (`src/index.js` line 89). -/
def presentIntercept : ℚ := 0.236749577324

/-- The fixed FUTURE intercept (`src/index.js` line 90). -/
def futureIntercept : ℚ := -0.570547567181

/-- One per-category section of the lexicon: an association list from surface
form (word or space-joined phrase) to its numeric weight.  JS object key
iteration order is insertion order, so an association list is faithful. -/
abbrev LexData := List (String × ℚ)

/-- The prospection lexicon: three fixed categories, each mapping surface
forms to weights (`./data/lexicon.json`, injected read-only data). -/
structure Lexicon where
  PAST : LexData
  PRESENT : LexData
  FUTURE : LexData
deriving DecidableEq

/-- A v0.3.0/v0.4.0 match entry: `[word, count, weight]`
(`src/index.js` line 330). -/
abbrev Match3 := String × ℕ × ℚ

/-- A per-category matches object with the three fixed lexicon categories. -/
structure Matches where
  PAST : List Match3
  PRESENT : List Match3
  FUTURE : List Match3
deriving DecidableEq

/-- The v0.4.0 matcher restricted to one category's data
(`src/index.js` lines 318-334, inner loop): keep every lexicon entry whose
surface form occurs in the token array and whose weight is strictly above
the threshold, annotated with its occurrence count `indexesOf(arr, word).length`
(= `List.count`). -/
def matchCategory (arr : List String) (threshold : ℚ) (data : LexData) :
    List Match3 :=
  data.filterMap fun wd =>
    if arr.contains wd.1 && decide (threshold < wd.2) then
      some (wd.1, arr.count wd.1, wd.2)
    else
      none

/-- The v0.4.0 `getMatches(arr, threshold)` (`src/index.js` lines 310-336):
`null` array propagates to `null`, a `null` threshold defaults to `-999`,
then every category of the lexicon is matched. -/
def getMatches (arr : Option (List String)) (threshold : Option ℚ)
    (lexicon : Lexicon) : Option Matches :=
  match arr with
  | none => none
  | some a =>
      let thr := threshold.getD (-999)
      some ⟨matchCategory a thr lexicon.PAST,
            matchCategory a thr lexicon.PRESENT,
            matchCategory a thr lexicon.FUTURE⟩

/-- The v0.4.0 scorer `calcLex(obj, wc, int, enc)` (`src/index.js` lines
347-363, identical to v0.3.0 `part_003` lines 131-147): `null` matches give
`null`; each entry adds its weight (binary path, taken when `enc === 'binary'`,
`enc == null` or `wc == null`) or `(count / wc) * weight` (frequency path);
a non-`null` intercept is added at the end.  The division is JS division, so
a zero wordcount on the frequency path produces a signed infinity. -/
def calcLex (obj : Option (List Match3)) (wc : Option JSNum) (int : Option ℚ)
    (enc : Option String) : Option JSNum :=
  match obj with
  | none => none
  | some entries =>
      let lex := entries.foldl
        (fun lex e =>
          if enc = some "binary" ∨ enc = none ∨ wc = none then
            lex.add (.fin e.2.2)
          else
            lex.add (((JSNum.fin (e.2.1 : ℚ)).div (wc.getD .nan)).mul
              (.fin e.2.2)))
        (.fin 0)
      some (match int with
            | none => lex
            | some i => lex.add (.fin i))

/-- The v2.0.0 orientation selector (`src/index.js` lines 108-122), shallowly
embedded at its only call shape `a = [obj.PAST, obj.PRESENT, obj.FUTURE]`.
`iMax` is the value of `a.reduce((iMax, x, i, arr) => x > arr[iMax] ? i : iMax, 0)`
hand-evaluated on the three-element array (the step at index 0 compares
`p > p` and is a no-op, index 1 compares `pr` against `a[0] = p`, index 2
compares `f` against the running maximum).  The `'Unknown'` default of the
source is kept verbatim. -/
def getOrientation (p pr f : ℚ) : String :=
  let iMax : ℕ :=
    if f > (if pr > p then pr else p) then 2
    else if pr > p then 1
    else 0
  if iMax = 0 then "Past"
  else if iMax = 1 then "Present"
  else if iMax = 2 then "Future"
  else "Unknown"

/-- A v0.1.1/v0.2.0 match item (`src/unnamed/part_001` lines 74-86): either
`[key, weight]` or, when the key occurs more than once, `[[key, ..., key], weight]`
with the key replicated once per occurrence. -/
inductive Item011 where
  | single (w : String)
  | multi (ws : List String)
deriving DecidableEq

/-- The v0.1.1 matcher restricted to one category
(`src/unnamed/part_001` lines 66-90, inner loop). -/
def matchCategory011 (arr : List String) (data : LexData) :
    List (Item011 × ℚ) :=
  data.filterMap fun wd =>
    if arr.contains wd.1 then
      some (if 1 < arr.count wd.1 then
              (.multi (List.replicate (arr.count wd.1) wd.1), wd.2)
            else (.single wd.1, wd.2))
    else
      none

/-- The v0.1.1 `getMatches(arr)` (`src/unnamed/part_001` lines 63-92). -/
def getMatches011 (arr : List String) (lexicon : Lexicon) :
    List (Item011 × ℚ) × List (Item011 × ℚ) × List (Item011 × ℚ) :=
  (matchCategory011 arr lexicon.PAST,
   matchCategory011 arr lexicon.PRESENT,
   matchCategory011 arr lexicon.FUTURE)

/-- The count a v0.1.1 match item contributes (`src/unnamed/part_001` lines
100-104: an array item counts its length, a plain string counts 1). -/
def itemCount011 : Item011 → ℕ
  | .single _ => 1
  | .multi ws => ws.length

/-- The v0.1.1 scorer `calcLex(obj, wc, int, enc)` (`src/unnamed/part_001`
lines 94-119): weights are summed directly unless `enc === 'frequency'`, in
which case each entry contributes `(count / wc) * weight` with JS division
(so a zero wordcount again produces infinities), and the intercept is added
unconditionally at the end. -/
def calcLex011 (obj : List (Item011 × ℚ)) (wc : ℚ) (int : ℚ)
    (enc : String) : JSNum :=
  let lex : JSNum := obj.foldl
    (fun (lex : JSNum) e =>
      if enc = "frequency" then
        lex.add (((JSNum.fin (itemCount011 e.1 : ℚ)).div (.fin wc)).mul
          (.fin e.2))
      else
        lex.add (.fin e.2))
    (.fin 0)
  lex.add (.fin int)

/-- The v0.1.1 orientation selector (`src/unnamed/part_001` lines 121-149),
embedded at its call shape `a = [obj.PAST, obj.PRESENT, obj.FUTURE]` with the
reduce hand-evaluated as in `getOrientation`.  `vMax` is `a[indexOfMaxValue]`.
Unlike v2.0.0 this version gates on `a[indexOfMaxValue] < 0` and reports the
no-orientation sentinel for a negative maximum. -/
def getOrientation011 (p pr f : JSNum) (more : Bool) : String :=
  let vMax : JSNum :=
    if (f.jgt (if pr.jgt p then pr else p)) = true then f
    else if pr.jgt p then pr else p
  let iMax : ℕ :=
    if (f.jgt (if pr.jgt p then pr else p)) = true then 2
    else if pr.jgt p then 1
    else 0
  let ori : String :=
    if iMax = 0 then "past"
    else if iMax = 1 then "present"
    else if iMax = 2 then "future"
    else "undefined"
  if vMax.jlt (.fin 0) then
    if more then
      "No temporal orientation association detected. " ++ ori ++
        " scored highest at " ++ vMax.toString ++ "."
    else
      "No temporal orientation association detected."
  else
    if more then ori ++ " " ++ vMax.toString
    else ori

/-- The v0.1.1 options object (`src/unnamed/part_001` lines 159-168):
`return`, `more` and `encoding`, each `null`-able and defaulted with `||`. -/
structure Opts011 where
  ret : Option String := none
  more : Option Bool := none
  encoding : Option String := none

/-- The v0.1.1 result: either the lexical-values object or a string. -/
inductive Result011 where
  | lexVals (past present future : JSNum)
  | str (s : String)
deriving DecidableEq

/-- The v0.1.1 `prospectimo` from the tokenizer handoff on
(`src/unnamed/part_001` lines 151-198).  String normalization and the
tokenizer are external, so the embedding takes the tokenizer result
(`null` = `none`).  When the tokenizer yields nothing the source returns the
literal object `{PAST: 0, PRESENT: 0, FUTURE: 0}` (lines 172-179).  v0.1.1
has no n-gram handling. -/
def prospectimo011 (tokens : Option (List String)) (lexicon : Lexicon)
    (opts : Opts011) : Result011 :=
  let ret := if opts.ret.getD "" = "" then "orientation" else opts.ret.getD ""
  let more := opts.more.getD false
  let enc := if opts.encoding.getD "" = "" then "binary"
             else opts.encoding.getD ""
  match tokens with
  | none => .lexVals (.fin 0) (.fin 0) (.fin 0)
  | some toks =>
      let ms := getMatches011 toks lexicon
      let wordcount : ℚ := (toks.length : ℚ)
      let past := calcLex011 ms.1 wordcount pastIntercept enc
      let present := calcLex011 ms.2.1 wordcount presentIntercept enc
      let future := calcLex011 ms.2.2 wordcount futureIntercept enc
      if ret = "lex" then .lexVals past present future
      else .str (getOrientation011 past present future more)

/-- The v2.0.0 options object before defaulting (`src/index.js` lines
142-161): every recognized field, each absent (`none`) or present.  `max`,
`min` and `places` are numbers; the remaining options are strings (v2.0.0
uses the strings `'true'`/`'false'` for `nGrams` and `wcGrams`). -/
structure RawOpts where
  encoding : Option String := none
  max : Option JSNum := none
  min : Option JSNum := none
  nGrams : Option String := none
  output : Option String := none
  places : Option JSNum := none
  sortBy : Option String := none
  wcGrams : Option String := none

/-- JS truthiness of a possibly-absent string (`''` and `null`/`undefined`
are falsy). -/
def truthyStr : Option String → Bool
  | none => false
  | some s => decide (s ≠ "")

/-- JS truthiness of a possibly-absent number (`0`, `NaN` and
`null`/`undefined` are falsy). -/
def truthyNum : Option JSNum → Bool
  | none => false
  | some (.fin q) => decide (q ≠ 0)
  | some .nan => false
  | some .posInf => true
  | some .negInf => true

/-- The v2.0.0 options after defaulting. -/
structure Opts where
  encoding : String
  max : JSNum
  min : JSNum
  nGrams : String
  output : String
  places : JSNum
  sortBy : String
  wcGrams : String

/-- The v2.0.0 option defaulting (`src/index.js` lines 154-161): each field
is defaulted with JS `||`, so every falsy value — including an explicit `0`
for `max`, `min` or `places` — is replaced by the built-in default.  The
lines-142-153 "no options object" case coincides with the all-`none`
`RawOpts`. -/
def resolveOpts (o : RawOpts) : Opts where
  encoding := if truthyStr o.encoding then o.encoding.getD "" else "binary"
  max := if truthyNum o.max then o.max.getD .nan else .posInf
  min := if truthyNum o.min then o.min.getD .nan else .negInf
  nGrams := if truthyStr o.nGrams then o.nGrams.getD "" else "true"
  output := if truthyStr o.output then o.output.getD "" else "orientation"
  places := if truthyNum o.places then o.places.getD .nan else .fin 9
  sortBy := if truthyStr o.sortBy then o.sortBy.getD "" else "freq"
  wcGrams := if truthyStr o.wcGrams then o.wcGrams.getD "" else "false"

/-- JS `String.prototype.toLowerCase()`, modelled character by character. -/
def jsToLower (s : String) : String := String.mk (s.data.map Char.toLower)

/-- The v2.0.0 token augmentation (`src/index.js` lines 176-180): when the
`nGrams` option (lowercased) is `'true'`, the bigram and trigram phrase lists
are concatenated onto the unigram tokens.  The phrase lists come from the
external `simplengrams`/`arr2string` collaborators and are taken as inputs. -/
def effTokens (tokens bigrams trigrams : List String) (nGrams : String) :
    List String :=
  if jsToLower nGrams = "true" then tokens ++ bigrams ++ trigrams else tokens

/-- The v2.0.0 wordcount (`src/index.js` lines 173-182): captured from
`tokens.length` before the n-grams are appended, and recomputed from the
augmented token list only when the `wcGrams` option (lowercased) is
`'true'`. -/
def effWordcount (tokens bigrams trigrams : List String)
    (nGrams wcGrams : String) : ℕ :=
  if jsToLower wcGrams = "true" then
    (effTokens tokens bigrams trigrams nGrams).length
  else
    tokens.length

/-- Modelled from the spec: the final-boundary rounding of numeric output to
`places` decimal places (`lex-helpers` is not in `src/`; spec section 4.4:
"Output is optionally rounded to a configured number of decimal places
(default 9) ... applied only at the final output boundary").  A non-finite
or negative `places` leaves the value unrounded. -/
def roundPlaces (q : ℚ) (places : JSNum) : ℚ :=
  match places with
  | .fin p => if 0 ≤ p then (round (q * 10 ^ p.floor.toNat) : ℚ) / 10 ^ p.floor.toNat
              else q
  | _ => q

/-- Modelled from the spec: the `lex-helpers` scorer `calcLex(obj, int,
places, encoding, wordcount)` called by `doLex` (`src/index.js` line 93);
`lex-helpers` itself is not in `src/`.  Spec section 4.4: binary encoding
sums each matched surface form's weight once; frequency encoding sums
`(occurrence_count / wordcount) * weight`; both modes guard a zero wordcount
by returning the intercept alone; the result is rounded at the boundary. -/
def calcLexLH (obj : List Match3) (int : ℚ) (places : JSNum)
    (encoding : String) (wordcount : ℕ) : ℚ :=
  let base : ℚ :=
    if encoding = "frequency" then
      if wordcount = 0 then 0
      else ((obj.map fun e => ((e.2.1 : ℚ) / (wordcount : ℚ)) * e.2.2)).sum
    else
      ((obj.map fun e => e.2.2)).sum
  roundPlaces (int + base) places

/-- The per-category lexical values object of v2.0.0. -/
structure LexValues where
  PAST : ℚ
  PRESENT : ℚ
  FUTURE : ℚ
deriving DecidableEq

/-- The v2.0.0 `doLex(matches, places, encoding, wordcount)` (`src/index.js`
lines 85-100): one `calcLexLH` value per category with the fixed intercepts.
The output dispatcher calls this function under the name `doValues`; `doLex`
is the only definition of that signature in the repository. -/
def doLex (ms : Matches) (places : JSNum) (encoding : String)
    (wordcount : ℕ) : LexValues where
  PAST := calcLexLH ms.PAST pastIntercept places encoding wordcount
  PRESENT := calcLexLH ms.PRESENT presentIntercept places encoding wordcount
  FUTURE := calcLexLH ms.FUTURE futureIntercept places encoding wordcount

/-- Modelled from the spec: the `lex-helpers` range matcher
`getMatches(tokens, lexicon, min, max)` (`src/index.js` line 184;
`lex-helpers` is not in `src/`), restricted to one category.  Spec sections
4.3 and 6: exact string match on the surface form, occurrence count from the
token sequence, and a `[min, max]` weight-range filter that excludes weights
below `min` or above `max` (README: "Exclude words that have weights above
the max threshold or below the min threshold"). -/
def matchCategoryRange (arr : List String) (mn mx : JSNum) (data : LexData) :
    List Match3 :=
  data.filterMap fun wd =>
    if arr.contains wd.1 && mn.jle (.fin wd.2) && (JSNum.fin wd.2).jle mx then
      some (wd.1, arr.count wd.1, wd.2)
    else
      none

/-- Modelled from the spec: the `lex-helpers` range matcher over the three
fixed categories (see `matchCategoryRange`). -/
def getMatchesRange (arr : List String) (lexicon : Lexicon) (mn mx : JSNum) :
    Matches where
  PAST := matchCategoryRange arr mn mx lexicon.PAST
  PRESENT := matchCategoryRange arr mn mx lexicon.PRESENT
  FUTURE := matchCategoryRange arr mn mx lexicon.FUTURE

/-- One row of the `matches` output shape: surface form, occurrence count,
weight and final per-word lexical contribution (spec section 6). -/
structure MatchOut where
  form : String
  count : ℕ
  weight : ℚ
  lexVal : ℚ
deriving DecidableEq

/-- Modelled from the spec: the per-entry preparation step of the missing
`doMatches` (spec section 6: each match row carries its contribution under
the selected encoding, rounded at the boundary). -/
def prepareMatch (e : Match3) (encoding : String) (wordcount : ℕ)
    (places : JSNum) : MatchOut where
  form := e.1
  count := e.2.1
  weight := e.2.2
  lexVal :=
    if encoding = "frequency" then
      if wordcount = 0 then roundPlaces 0 places
      else roundPlaces (((e.2.1 : ℚ) / (wordcount : ℚ)) * e.2.2) places
    else roundPlaces e.2.2 places

/-- Modelled from the spec: the descending sort order of the `matches`
output shape selected by `sortBy` (spec section 6: `freq`, `weight` or
`lex`; README: most-used words first). -/
def sortMatchRows (rows : List MatchOut) (sortBy : String) : List MatchOut :=
  if sortBy = "weight" then
    rows.insertionSort fun a b => b.weight ≤ a.weight
  else if sortBy = "lex" then
    rows.insertionSort fun a b => b.lexVal ≤ a.lexVal
  else
    rows.insertionSort fun a b => b.count ≤ a.count

/-- The `matches` output shape over the three fixed categories. -/
structure MatchesOut where
  PAST : List MatchOut
  PRESENT : List MatchOut
  FUTURE : List MatchOut
deriving DecidableEq

/-- Modelled from the spec: the missing `doMatches(matches, sortBy,
wordcount, places, encoding)` (`src/index.js` lines 186-189; not defined in
`src/`): per category, the prepared match rows sorted per `sortBy`. -/
def doMatches (ms : Matches) (sortBy : String) (wordcount : ℕ)
    (places : JSNum) (encoding : String) : MatchesOut where
  PAST := sortMatchRows (ms.PAST.map fun e =>
    prepareMatch e encoding wordcount places) sortBy
  PRESENT := sortMatchRows (ms.PRESENT.map fun e =>
    prepareMatch e encoding wordcount places) sortBy
  FUTURE := sortMatchRows (ms.FUTURE.map fun e =>
    prepareMatch e encoding wordcount places) sortBy

/-- The v2.0.0 result value: one of the four output shapes. -/
inductive Result where
  | matchesOut (m : MatchesOut)
  | values (v : LexValues)
  | full (m : MatchesOut) (v : LexValues)
  | orientation (s : String)
deriving DecidableEq

/-- Whether a v2.0.0 result is the per-category numeric-scores shape. -/
def isValuesShape : Result → Bool
  | .values _ => true
  | _ => false

/-- The v2.0.0 warning for an unrecognized `output` option
(`src/index.js` lines 196-198). -/
def invalidOutputWarning (output : String) : String :=
  "prospectimo: output option (\"" ++ output ++
    "\") is invalid, defaulting to \"orientation\"."

/-- The v2.0.0 warning for an empty tokenizer result
(`src/index.js` line 170). -/
def noTokensWarning : String := "prospectimo: no tokens found. Returned null."

/-- The v2.0.0 `prospectimo` from the tokenizer handoff on (`src/index.js`
lines 131-202).  String normalization, the tokenizer and the n-gram
generator are external collaborators, so the embedding takes the tokenizer
result (`null` = `none`) and the stringified bigram/trigram lists as inputs;
the `str`-falsy `return null` guard of lines 133-136 precedes tokenization
and is outside this slice.  The second component collects the `console.warn`
diagnostics the call emits.  A `none` tokenizer result returns `null` with a
warning (lines 169-172); otherwise the wordcount and token list follow
lines 173-182, the matcher runs with the resolved `min`/`max` bounds, and
the output dispatcher of lines 185-201 picks the shape — any unrecognized
`output` falls through to the orientation branch with a warning. -/
def prospectimo (tokens : Option (List String))
    (bigrams trigrams : List String) (lexicon : Lexicon) (o : RawOpts) :
    Option Result × List String :=
  let opts := resolveOpts o
  match tokens with
  | none => (none, [noTokensWarning])
  | some toks =>
      let toks2 := effTokens toks bigrams trigrams opts.nGrams
      let wordcount := effWordcount toks bigrams trigrams opts.nGrams
        opts.wcGrams
      let ms := getMatchesRange toks2 lexicon opts.min opts.max
      if opts.output = "matches" then
        (some (.matchesOut (doMatches ms opts.sortBy wordcount opts.places
          opts.encoding)), [])
      else if opts.output = "full" then
        (some (.full (doMatches ms opts.sortBy wordcount opts.places
            opts.encoding)
          (doLex ms opts.places opts.encoding wordcount)), [])
      else if opts.output = "lex" then
        (some (.values (doLex ms opts.places opts.encoding wordcount)), [])
      else
        let v := doLex ms opts.places opts.encoding wordcount
        if opts.output = "orientation" then
          (some (.orientation (getOrientation v.PAST v.PRESENT v.FUTURE)), [])
        else
          (some (.orientation (getOrientation v.PAST v.PRESENT v.FUTURE)),
            [invalidOutputWarning opts.output])

/-! ## Helper lemmas -/

theorem JSNum.add_fin (a b : ℚ) : (JSNum.fin a).add (.fin b) = .fin (a + b) :=
  rfl

theorem foldlAddFin (f : Match3 → ℚ) (l : List Match3) (a : ℚ) :
    (l.foldl (fun lex e => lex.add (JSNum.fin (f e))) (.fin a))
      = JSNum.fin (a + (l.map f).sum) := by
  induction l generalizing a with
  | nil => simp
  | cons x xs ih =>
    simp only [List.foldl_cons]
    rw [JSNum.add_fin, ih]
    simp [add_assoc]

theorem calcLex_binary_eq (entries : List Match3) (wc : Option JSNum)
    (int : ℚ) :
    calcLex (some entries) wc (some int) (some "binary")
      = some (.fin ((entries.map fun e => e.2.2).sum + int)) := by
  simp only [calcLex, eq_self_iff_true, true_or, if_true]
  rw [foldlAddFin (fun e => e.2.2), JSNum.add_fin]
  norm_num

theorem calcLex_freq_eq (entries : List Match3) (n : ℚ) (hn : n ≠ 0)
    (int : ℚ) :
    calcLex (some entries) (some (.fin n)) (some int) (some "frequency")
      = some (.fin ((entries.map fun e => ((e.2.1 : ℚ) / n) * e.2.2).sum
          + int)) := by
  have hc : ¬((some "frequency" : Option String) = some "binary"
      ∨ (some "frequency" : Option String) = none
      ∨ (some (JSNum.fin n) : Option JSNum) = none) := by simp
  simp only [calcLex, if_neg hc, Option.getD_some, JSNum.div, if_neg hn,
    JSNum.mul]
  rw [foldlAddFin (fun e => ((e.2.1 : ℚ) / n) * e.2.2), JSNum.add_fin]
  norm_num

theorem matchCategory_map_weight (arr : List String) (thr : ℚ)
    (data : LexData) :
    (matchCategory arr thr data).map (fun e => e.2.2)
      = ((data.filter fun wd =>
            arr.contains wd.1 && decide (thr < wd.2)).map fun wd => wd.2) := by
  induction data with
  | nil => rfl
  | cons x xs ih =>
    by_cases hp : x.1 ∈ arr ∧ thr < x.2
    · simp [matchCategory, List.filterMap_cons, List.filter_cons, hp]
      simpa [matchCategory] using ih
    · simp [matchCategory, List.filterMap_cons, List.filter_cons, hp]
      simpa [matchCategory] using ih

theorem calcLex_binary_matchCategory (data : LexData) (arr : List String)
    (thr int : ℚ) (wc : Option JSNum) :
    calcLex (some (matchCategory arr thr data)) wc (some int) (some "binary")
      = some (.fin ((((data.filter fun wd =>
          arr.contains wd.1 && decide (thr < wd.2)).map fun wd => wd.2).sum)
          + int)) := by
  rw [calcLex_binary_eq, matchCategory_map_weight]

theorem contains_eq_decide_mem (l : List String) (w : String) :
    l.contains w = decide (w ∈ l) := by
  induction l with
  | nil => rfl
  | cons x xs ih => simp [List.contains_cons]

theorem JSNum.add_notFinite (x y : JSNum) (h : x.isFinite = false) :
    (x.add y).isFinite = false := by
  cases x <;> cases y <;> simp_all [JSNum.add, JSNum.isFinite]

theorem foldlAdd_notFinite (t : Match3 → JSNum) (l : List Match3)
    (acc : JSNum) (h : acc.isFinite = false) :
    (l.foldl (fun lex e => lex.add (t e)) acc).isFinite = false := by
  induction l generalizing acc with
  | nil => simpa
  | cons x xs ih =>
    simp only [List.foldl_cons]
    exact ih _ (JSNum.add_notFinite _ _ h)

/-! ## Claim theorems -/

/-- **C6** (confirmed): for every category match list produced by the matcher,
the binary-encoded score equals the intercept plus the sum of the weights of
the matched surface forms (each lexicon entry is visited once, so each
distinct matched form contributes exactly once), and the binary score is
unchanged when the token array is replaced by any array containing the same
set of words — occurrence counts are ignored. -/
theorem claim_C6 (data : LexData) (arr : List String) (thr int : ℚ)
    (wc : Option JSNum) :
    (calcLex (some (matchCategory arr thr data)) wc (some int) (some "binary")
      = some (.fin ((((data.filter fun wd =>
          arr.contains wd.1 && decide (thr < wd.2)).map fun wd => wd.2).sum)
          + int)))
    ∧ (∀ arr2 : List String, (∀ w, arr.contains w = arr2.contains w) →
        calcLex (some (matchCategory arr thr data)) wc (some int)
            (some "binary")
          = calcLex (some (matchCategory arr2 thr data)) wc (some int)
            (some "binary")) := by
  refine ⟨calcLex_binary_matchCategory data arr thr int wc, ?_⟩
  intro arr2 h
  rw [calcLex_binary_matchCategory, calcLex_binary_matchCategory]
  have hf : (data.filter fun wd => arr.contains wd.1 && decide (thr < wd.2))
      = data.filter fun wd => arr2.contains wd.1 && decide (thr < wd.2) :=
    List.filter_congr (fun wd _ => by rw [h wd.1])
  rw [hf]

/-- Witness for C6: the token arrays `["ran"]` and `["ran", "ran"]` contain
the same set of words, so the binary score is the same although the
occurrence counts differ. -/
theorem claim_C6_witness :
    calcLex (some (matchCategory ["ran"] (-999) [("ran", (1:ℚ))])) none
        (some 0) (some "binary")
      = calcLex (some (matchCategory ["ran", "ran"] (-999)
        [("ran", (1:ℚ))])) none (some 0) (some "binary") :=
  (claim_C6 [("ran", (1:ℚ))] ["ran"] (-999) 0 none).2 ["ran", "ran"]
    (fun w => by simp [List.contains_cons])

/-- **C9** (confirmed): matching followed by binary scoring is invariant
under permutation of the token sequence. -/
theorem claim_C9 (data : LexData) (arr1 arr2 : List String) (thr int : ℚ)
    (wc : Option JSNum) (h : arr1.Perm arr2) :
    calcLex (some (matchCategory arr1 thr data)) wc (some int)
        (some "binary")
      = calcLex (some (matchCategory arr2 thr data)) wc (some int)
        (some "binary") := by
  rw [calcLex_binary_matchCategory, calcLex_binary_matchCategory]
  have hcont : ∀ w, arr1.contains w = arr2.contains w := fun w => by
    rw [contains_eq_decide_mem, contains_eq_decide_mem]
    exact decide_eq_decide.mpr h.mem_iff
  rw [List.filter_congr (fun wd _ => by rw [hcont wd.1])]

/-- Witness for C9: the binary score of a category is the same on the
permuted token sequences `["went", "will"]` and `["will", "went"]`. -/
theorem claim_C9_witness :
    calcLex (some (matchCategory ["went", "will"] (-999)
        [("went", (1:ℚ)), ("will", (2:ℚ))])) none (some 0) (some "binary")
      = calcLex (some (matchCategory ["will", "went"] (-999)
        [("went", (1:ℚ)), ("will", (2:ℚ))])) none (some 0)
        (some "binary") :=
  claim_C9 [("went", (1:ℚ)), ("will", (2:ℚ))] ["went", "will"]
    ["will", "went"] (-999) 0 none (List.Perm.swap "will" "went" [])

/-- **C5** (confirmed): with a positive wordcount the frequency-encoded
score is the intercept plus the sum of `(occurrence_count / wordcount) *
weight` over the match list; for a single-token input matching exactly one
lexicon entry of weight `w` the category scores `intercept + w`, and a
category whose lexicon section does not contain the token scores its bare
intercept. -/
theorem claim_C5 :
    (∀ (entries : List Match3) (n int : ℚ), 0 < n →
        calcLex (some entries) (some (.fin n)) (some int) (some "frequency")
          = some (.fin ((entries.map fun e =>
              ((e.2.1 : ℚ) / n) * e.2.2).sum + int)))
    ∧ (∀ (t : String) (w thr int : ℚ), thr < w →
        calcLex (some (matchCategory [t] thr [(t, w)])) (some (.fin 1))
            (some int) (some "frequency")
          = some (.fin (int + w)))
    ∧ (∀ (t : String) (data : LexData) (thr int : ℚ),
        (∀ wd ∈ data, wd.1 ≠ t) →
        calcLex (some (matchCategory [t] thr data)) (some (.fin 1))
            (some int) (some "frequency")
          = some (.fin int)) := by
  refine ⟨?_, ?_, ?_⟩
  · intro entries n int hn
    exact calcLex_freq_eq entries n (ne_of_gt hn) int
  · intro t w thr int h
    have hmc : matchCategory [t] thr [(t, w)] = [(t, 1, w)] := by
      simp [matchCategory, h, List.count_cons]
    rw [hmc, calcLex_freq_eq _ 1 one_ne_zero]
    norm_num [add_comm]
  · intro t data thr int h
    have hmc : matchCategory [t] thr data = [] := by
      simp only [matchCategory, List.filterMap_eq_nil_iff]
      intro wd hwd
      simp [h wd hwd]
    rw [hmc, calcLex_freq_eq [] 1 one_ne_zero]
    norm_num

/-- Witness for C5: a two-token wordcount, a single-token match scoring
`intercept + w`, and a non-matching category keeping its bare intercept. -/
theorem claim_C5_witness :
    calcLex (some [("x", 1, (1:ℚ))]) (some (.fin 2)) (some 0)
        (some "frequency")
      = some (.fin ((([("x", 1, (1:ℚ))] : List Match3).map fun e =>
          ((e.2.1 : ℚ) / 2) * e.2.2).sum + 0))
    ∧ calcLex (some (matchCategory ["tomorrow"] (-999)
        [("tomorrow", (1/2 : ℚ))])) (some (.fin 1)) (some futureIntercept)
        (some "frequency")
      = some (.fin (futureIntercept + 1/2))
    ∧ calcLex (some (matchCategory ["tomorrow"] (-999)
        [("yesterday", (1/2 : ℚ))])) (some (.fin 1)) (some pastIntercept)
        (some "frequency")
      = some (.fin pastIntercept) :=
  ⟨claim_C5.1 [("x", 1, (1:ℚ))] 2 0 (by norm_num),
   claim_C5.2.1 "tomorrow" (1/2) (-999) futureIntercept (by norm_num),
   claim_C5.2.2 "tomorrow" [("yesterday", (1/2 : ℚ))] (-999) pastIntercept
     (by intro wd hwd; rw [List.mem_singleton] at hwd; subst hwd; decide)⟩

/-- **C4** (corrected — counterexample): the v0.4.0 scorer does not guard a
zero numeric wordcount: in frequency mode a nonempty match list divides by
zero and yields `Infinity`, not the intercept alone. -/
theorem claim_C4_counterexample :
    calcLex (some [("made", 1, (1:ℚ))]) (some (.fin 0)) (some pastIntercept)
        (some "frequency") = some .posInf
    ∧ (some JSNum.posInf : Option JSNum) ≠ some (.fin pastIntercept) := by
  constructor
  · have hc : ¬((some "frequency" : Option String) = some "binary"
        ∨ (some "frequency" : Option String) = none
        ∨ (some (JSNum.fin 0) : Option JSNum) = none) := by simp
    simp only [calcLex, if_neg hc, Option.getD_some, List.foldl_cons,
      List.foldl_nil]
    norm_num [JSNum.div, JSNum.mul, JSNum.add]
  · simp

/-- **C4** (corrected — amended): an empty match list scores the intercept
alone under every encoding and wordcount; binary encoding never divides, so
a zero wordcount is harmless there (the score is the intercept plus the
matched weights); but frequency encoding with a numeric zero wordcount and a
nonempty match list divides by zero and produces a non-finite value
(`Infinity` or `NaN`) — only a `null` wordcount falls back to the binary
path. -/
theorem claim_C4 :
    (∀ (wc : Option JSNum) (int : ℚ) (enc : Option String),
        calcLex (some []) wc (some int) enc = some (.fin int))
    ∧ (∀ (entries : List Match3) (wc : Option JSNum) (int : ℚ),
        calcLex (some entries) wc (some int) (some "binary")
          = some (.fin ((entries.map fun e => e.2.2).sum + int)))
    ∧ (∀ (entries : List Match3) (int : ℚ), entries ≠ [] →
        (∀ e ∈ entries, 1 ≤ e.2.1 ∧ e.2.2 ≠ 0) →
        (calcLex (some entries) (some (.fin 0)) (some int)
            (some "frequency")).map JSNum.isFinite = some false) := by
  refine ⟨?_, ?_, ?_⟩
  · intro wc int enc
    simp [calcLex, JSNum.add_fin]
  · intro entries wc int
    exact calcLex_binary_eq entries wc int
  · intro entries int hne h
    obtain ⟨e0, rest, rfl⟩ := List.exists_cons_of_ne_nil hne
    have hc : ¬((some "frequency" : Option String) = some "binary"
        ∨ (some "frequency" : Option String) = none
        ∨ (some (JSNum.fin 0) : Option JSNum) = none) := by simp
    simp only [calcLex, if_neg hc, Option.getD_some, List.foldl_cons]
    obtain ⟨h1, h2⟩ := h e0 (List.mem_cons_self e0 rest)
    have hcpos : (0:ℚ) < (e0.2.1 : ℚ) := by exact_mod_cast h1
    have hne0 : e0.2.1 ≠ 0 := by omega
    have hdiv : (JSNum.fin (e0.2.1 : ℚ)).div (.fin 0) = .posInf := by
      simp [JSNum.div, hcpos, hne0]
    have hterm : (((JSNum.fin (e0.2.1 : ℚ)).div (.fin 0)).mul
        (.fin e0.2.2)).isFinite = false := by
      rw [hdiv]
      by_cases hw : 0 < e0.2.2
      · simp [JSNum.mul, h2, hw, JSNum.isFinite]
      · simp [JSNum.mul, h2, hw, JSNum.isFinite]
    have hinit : ((JSNum.fin 0).add (((JSNum.fin (e0.2.1 : ℚ)).div
        (.fin 0)).mul (.fin e0.2.2))).isFinite = false := by
      cases hmul : ((JSNum.fin (e0.2.1 : ℚ)).div (.fin 0)).mul
          (.fin e0.2.2) <;> simp_all [JSNum.add, JSNum.isFinite]
    have hfold := foldlAdd_notFinite
      (fun e => ((JSNum.fin (e.2.1 : ℚ)).div (.fin 0)).mul (.fin e.2.2))
      rest _ hinit
    rw [Option.map]
    exact congrArg some (JSNum.add_notFinite _ _ hfold)

/-- Witness for C4 amended: the intercept-alone case at zero wordcount and
the non-finite frequency case at zero wordcount. -/
theorem claim_C4_witness :
    calcLex (some []) (some (.fin 0)) (some 1) (some "frequency")
      = some (.fin 1)
    ∧ (calcLex (some [("made", 1, (1:ℚ))]) (some (.fin 0)) (some 0)
        (some "frequency")).map JSNum.isFinite = some false :=
  ⟨claim_C4.1 (some (.fin 0)) 1 (some "frequency"),
   claim_C4.2.2 [("made", 1, (1:ℚ))] 0 (by simp)
     (by intro e he; rw [List.mem_singleton] at he; subst he
         exact ⟨le_refl 1, one_ne_zero⟩)⟩

/-- **C10** (confirmed): v2.0.0 defaults every option with JS `||`, so an
explicit falsy `0` (or `NaN`, or an absent value) for `min`, `max` or
`places` is silently replaced by the defaults `-Infinity`, `Infinity` and
`9`, and no resolved `min`, `max` or `places` can ever be `0`. -/
theorem claim_C10 (o : RawOpts) :
    ((o.min = some (.fin 0) → (resolveOpts o).min = .negInf)
    ∧ (o.max = some (.fin 0) → (resolveOpts o).max = .posInf)
    ∧ (o.places = some (.fin 0) → (resolveOpts o).places = .fin 9))
    ∧ ((truthyNum o.min = false → (resolveOpts o).min = .negInf)
    ∧ (truthyNum o.max = false → (resolveOpts o).max = .posInf)
    ∧ (truthyNum o.places = false → (resolveOpts o).places = .fin 9))
    ∧ ((resolveOpts o).min ≠ .fin 0 ∧ (resolveOpts o).max ≠ .fin 0
    ∧ (resolveOpts o).places ≠ .fin 0) := by
  have hne : ∀ (v : Option JSNum) (d : JSNum), d ≠ .fin 0 →
      (if truthyNum v then v.getD .nan else d) ≠ .fin 0 := by
    intro v d hd
    cases v with
    | none => simpa [truthyNum]
    | some x =>
        cases x with
        | fin q =>
            by_cases hq : q = 0
            · simpa [truthyNum, hq]
            · simp [truthyNum, hq]
        | posInf => simp [truthyNum]
        | negInf => simp [truthyNum]
        | nan => simpa [truthyNum]
  refine ⟨⟨?_, ?_, ?_⟩, ⟨?_, ?_, ?_⟩, ?_, ?_, ?_⟩
  · intro h; simp [resolveOpts, truthyNum, h]
  · intro h; simp [resolveOpts, truthyNum, h]
  · intro h; simp [resolveOpts, truthyNum, h]
  · intro h; simp [resolveOpts, h]
  · intro h; simp [resolveOpts, h]
  · intro h; simp [resolveOpts, h]
  · exact hne o.min .negInf (by simp)
  · exact hne o.max .posInf (by simp)
  · exact hne o.places (.fin 9) (by norm_num)

/-- Witness for C10: explicit zeroes for `min`, `max` and `places` are
replaced by the defaults. -/
theorem claim_C10_witness :
    (resolveOpts { min := some (.fin 0), max := some (.fin 0), places := some (.fin 0) }).min = .negInf
    ∧ (resolveOpts { min := some (.fin 0), max := some (.fin 0), places := some (.fin 0) }).max = .posInf
    ∧ (resolveOpts { min := some (.fin 0), max := some (.fin 0), places := some (.fin 0) }).places = .fin 9 :=
  ⟨(claim_C10 { min := some (.fin 0), max := some (.fin 0), places := some (.fin 0) }).1.1 rfl,
   (claim_C10 { min := some (.fin 0), max := some (.fin 0), places := some (.fin 0) }).1.2.1 rfl,
   (claim_C10 { min := some (.fin 0), max := some (.fin 0), places := some (.fin 0) }).1.2.2 rfl⟩

/-- **C1** (code_bug): the v2.0.0 orientation selector can never return its
`'Unknown'` sentinel — the arg-max index is always 0, 1 or 2 — so for an
all-negative lexical-values object (e.g. `{PAST: -1, PRESENT: -2,
FUTURE: -3}`) it returns the category name `'Past'` instead of the
no-orientation sentinel required by the spec; the v0.1.1 selector, which the
spec describes, does return the sentinel on the same input. -/
theorem claim_C1 :
    (∀ p pr f : ℚ, getOrientation p pr f ≠ "Unknown")
    ∧ getOrientation (-1) (-2) (-3) = "Past"
    ∧ getOrientation011 (.fin (-1)) (.fin (-2)) (.fin (-3)) false
        = "No temporal orientation association detected." := by
  refine ⟨?_, ?_, ?_⟩
  · intro p pr f
    simp only [getOrientation]
    split_ifs <;> simp_all
  · norm_num [getOrientation]
  · norm_num [getOrientation011, JSNum.jgt, JSNum.jlt]

/-- **C7** (confirmed): when two or more categories share the maximal score,
the v2.0.0 selector deterministically picks the earliest such category in
the order PAST, PRESENT, FUTURE (first-match-wins on strict
greater-than). -/
theorem claim_C7 (p pr f : ℚ)
    (h : (p = max p (max pr f) ∧ pr = max p (max pr f))
       ∨ (p = max p (max pr f) ∧ f = max p (max pr f))
       ∨ (pr = max p (max pr f) ∧ f = max p (max pr f))) :
    getOrientation p pr f
      = (if p = max p (max pr f) then "Past" else "Present") := by
  have hpm : p ≤ max p (max pr f) := le_max_left _ _
  have hprm : pr ≤ max p (max pr f) :=
    le_trans (le_max_left _ _) (le_max_right _ _)
  have hfm : f ≤ max p (max pr f) :=
    le_trans (le_max_right _ _) (le_max_right _ _)
  rcases h with ⟨h1, h2⟩ | ⟨h1, h2⟩ | ⟨h1, h2⟩
  · have hpp : pr = p := h2.trans h1.symm
    have e1 : ¬ pr > p := by rw [hpp]; exact lt_irrefl p
    rw [← h1] at hfm
    have e2 : ¬ f > p := not_lt.mpr hfm
    simp only [getOrientation, if_neg e1, if_neg e2, if_pos h1]
    norm_num
  · rw [← h1] at hprm
    have e1 : ¬ pr > p := not_lt.mpr hprm
    have hfp : f = p := h2.trans h1.symm
    have e2 : ¬ f > p := by rw [hfp]; exact lt_irrefl p
    simp only [getOrientation, if_neg e1, if_neg e2, if_pos h1]
    norm_num
  · by_cases hp : p = max p (max pr f)
    · rw [← hp] at hprm hfm
      have e1 : ¬ pr > p := not_lt.mpr hprm
      have e2 : ¬ f > p := not_lt.mpr hfm
      simp only [getOrientation, if_neg e1, if_neg e2, if_pos hp]
      norm_num
    · have hplt : p < max p (max pr f) := lt_of_le_of_ne hpm hp
      have e1 : pr > p := by rw [h1]; exact hplt
      have hfpr : f = pr := h2.trans h1.symm
      have e2 : ¬ f > pr := by rw [hfpr]; exact lt_irrefl pr
      simp only [getOrientation, if_pos e1, if_neg e2, if_neg hp]
      norm_num

/-- Witness for C7: PAST and PRESENT tie at the maximum and PAST wins. -/
theorem claim_C7_witness : getOrientation 1 1 0 = "Past" := by
  have hmax0 : max (1:ℚ) 0 = 1 := max_eq_left (by norm_num)
  have hm : (1:ℚ) = max 1 (max 1 0) := by rw [hmax0, max_self]
  have h := claim_C7 1 1 0 (Or.inl ⟨hm, hm⟩)
  rw [h, if_pos hm]

/-- **C2** (corrected — counterexample): with no tokens, v2.0.0 returns
`null` — not a category mapping carrying the intercept values — and v0.1.1
returns the literal all-zero mapping `{PAST: 0, PRESENT: 0, FUTURE: 0}`,
whose zero scores are not the intercepts. -/
theorem claim_C2_counterexample :
    (prospectimo none [] [] (Lexicon.mk [] [] []) {}).1 = none
    ∧ (prospectimo none [] [] (Lexicon.mk [] [] []) {}).1
        ≠ some (.values (LexValues.mk pastIntercept presentIntercept
          futureIntercept))
    ∧ prospectimo011 none (Lexicon.mk [] [] []) {}
        = .lexVals (.fin 0) (.fin 0) (.fin 0)
    ∧ (JSNum.fin 0) ≠ .fin pastIntercept := by
  refine ⟨rfl, ?_, rfl, ?_⟩
  · rw [show (prospectimo none [] [] (Lexicon.mk [] [] []) {}).1 = none
      from rfl]
    simp
  · simp only [ne_eq, JSNum.fin.injEq]
    norm_num [pastIntercept]

/-- **C2** (corrected — amended): when the tokenizer yields no tokens,
neither version raises an error: v2.0.0 logs a warning and returns `null`,
while v0.1.1 returns the all-zero mapping `{PAST: 0, PRESENT: 0, FUTURE: 0}`
(bare zeros, not the intercepts, and no orientation string). -/
theorem claim_C2 :
    (∀ (bigrams trigrams : List String) (lexicon : Lexicon) (o : RawOpts),
        prospectimo none bigrams trigrams lexicon o
          = (none, [noTokensWarning]))
    ∧ (∀ (lexicon : Lexicon) (o : Opts011),
        prospectimo011 none lexicon o
          = .lexVals (.fin 0) (.fin 0) (.fin 0)) :=
  ⟨fun _ _ _ _ => rfl, fun _ _ => rfl⟩

/-- **C3** (corrected — counterexample): an unrecognized `output` option
(`"banana"`) does not fall back to the per-category numeric-scores shape:
the result is the orientation-label shape, with the fallback warning
emitted. -/
theorem claim_C3_counterexample :
    ((prospectimo (some ["hello"]) [] [] (Lexicon.mk [] [] []) { output := some "banana" }).1).map isValuesShape = some false
    ∧ (prospectimo (some ["hello"]) [] [] (Lexicon.mk [] [] []) { output := some "banana" }).2 = [invalidOutputWarning "banana"] :=
  ⟨rfl, rfl⟩

/-- **C3** (corrected — amended): an unrecognized `output` value falls back
to the orientation label (the code's default output mode), emitting the
recoverable fallback warning, and the computation completes. -/
theorem claim_C3 (toks bigrams trigrams : List String) (lexicon : Lexicon)
    (o : RawOpts) (h1 : (resolveOpts o).output ≠ "matches")
    (h2 : (resolveOpts o).output ≠ "full")
    (h3 : (resolveOpts o).output ≠ "lex")
    (h4 : (resolveOpts o).output ≠ "orientation") :
    (prospectimo (some toks) bigrams trigrams lexicon o).1
      = some (.orientation (getOrientation
          (doLex (getMatchesRange (effTokens toks bigrams trigrams (resolveOpts o).nGrams) lexicon (resolveOpts o).min (resolveOpts o).max) (resolveOpts o).places (resolveOpts o).encoding (effWordcount toks bigrams trigrams (resolveOpts o).nGrams (resolveOpts o).wcGrams)).PAST
          (doLex (getMatchesRange (effTokens toks bigrams trigrams (resolveOpts o).nGrams) lexicon (resolveOpts o).min (resolveOpts o).max) (resolveOpts o).places (resolveOpts o).encoding (effWordcount toks bigrams trigrams (resolveOpts o).nGrams (resolveOpts o).wcGrams)).PRESENT
          (doLex (getMatchesRange (effTokens toks bigrams trigrams (resolveOpts o).nGrams) lexicon (resolveOpts o).min (resolveOpts o).max) (resolveOpts o).places (resolveOpts o).encoding (effWordcount toks bigrams trigrams (resolveOpts o).nGrams (resolveOpts o).wcGrams)).FUTURE))
    ∧ (prospectimo (some toks) bigrams trigrams lexicon o).2
        = [invalidOutputWarning (resolveOpts o).output] := by
  simp only [prospectimo]
  rw [if_neg h1, if_neg h2, if_neg h3, if_neg h4]
  exact ⟨rfl, rfl⟩

/-- Witness for C3: the invalid output mode `"banana"`. -/
theorem claim_C3_witness :
    (prospectimo (some ["hello"]) [] [] (Lexicon.mk [] [] []) { output := some "banana" }).1
      = some (.orientation (getOrientation
          (doLex (getMatchesRange (effTokens ["hello"] [] [] (resolveOpts { output := some "banana" }).nGrams) (Lexicon.mk [] [] []) (resolveOpts { output := some "banana" }).min (resolveOpts { output := some "banana" }).max) (resolveOpts { output := some "banana" }).places (resolveOpts { output := some "banana" }).encoding (effWordcount ["hello"] [] [] (resolveOpts { output := some "banana" }).nGrams (resolveOpts { output := some "banana" }).wcGrams)).PAST
          (doLex (getMatchesRange (effTokens ["hello"] [] [] (resolveOpts { output := some "banana" }).nGrams) (Lexicon.mk [] [] []) (resolveOpts { output := some "banana" }).min (resolveOpts { output := some "banana" }).max) (resolveOpts { output := some "banana" }).places (resolveOpts { output := some "banana" }).encoding (effWordcount ["hello"] [] [] (resolveOpts { output := some "banana" }).nGrams (resolveOpts { output := some "banana" }).wcGrams)).PRESENT
          (doLex (getMatchesRange (effTokens ["hello"] [] [] (resolveOpts { output := some "banana" }).nGrams) (Lexicon.mk [] [] []) (resolveOpts { output := some "banana" }).min (resolveOpts { output := some "banana" }).max) (resolveOpts { output := some "banana" }).places (resolveOpts { output := some "banana" }).encoding (effWordcount ["hello"] [] [] (resolveOpts { output := some "banana" }).nGrams (resolveOpts { output := some "banana" }).wcGrams)).FUTURE))
    ∧ (prospectimo (some ["hello"]) [] [] (Lexicon.mk [] [] []) { output := some "banana" }).2
        = [invalidOutputWarning (resolveOpts { output := some "banana" }).output] :=
  claim_C3 ["hello"] [] [] (Lexicon.mk [] [] []) { output := some "banana" }
    (by decide) (by decide) (by decide) (by decide)

/-- **C8** (confirmed): the wordcount is the pre-n-gram unigram count unless
`wcGrams` (lowercased) is `'true'`, in which case it is the length of the
augmented token list (unigrams plus bigram and trigram phrases); the `lex`
output computes its values with exactly this wordcount, which is the
denominator of the frequency encoding. -/
theorem claim_C8 :
    (∀ (toks bigrams trigrams : List String) (nG wcG : String),
        jsToLower wcG ≠ "true" →
        effWordcount toks bigrams trigrams nG wcG = toks.length)
    ∧ (∀ toks bigrams trigrams : List String,
        effWordcount toks bigrams trigrams "true" "true"
          = (toks ++ bigrams ++ trigrams).length)
    ∧ (∀ (toks bigrams trigrams : List String) (lexicon : Lexicon)
        (o : RawOpts), (resolveOpts o).output = "lex" →
        (prospectimo (some toks) bigrams trigrams lexicon o).1
          = some (.values (doLex
              (getMatchesRange (effTokens toks bigrams trigrams
                  (resolveOpts o).nGrams) lexicon (resolveOpts o).min
                (resolveOpts o).max)
              (resolveOpts o).places (resolveOpts o).encoding
              (effWordcount toks bigrams trigrams (resolveOpts o).nGrams
                (resolveOpts o).wcGrams))))
    ∧ (∀ (entries : List Match3) (int : ℚ) (places : JSNum) (wc : ℕ),
        wc ≠ 0 →
        calcLexLH entries int places "frequency" wc
          = roundPlaces (int + ((entries.map fun e =>
              ((e.2.1 : ℚ) / (wc : ℚ)) * e.2.2)).sum) places) := by
  refine ⟨?_, ?_, ?_, ?_⟩
  · intro toks bigrams trigrams nG wcG h
    simp [effWordcount, h]
  · intro toks bigrams trigrams
    rfl
  · intro toks bigrams trigrams lexicon o h
    simp only [prospectimo]
    rw [h]
    rw [if_neg (by decide : ¬("lex" : String) = "matches"),
      if_neg (by decide : ¬("lex" : String) = "full"), if_pos rfl]
  · intro entries int places wc h
    simp [calcLexLH, h]

/-- Witness for C8: a two-unigram input whose wordcount stays 2 with
`wcGrams` false, the `lex` output at a concrete call, and the frequency
denominator at wordcount 1. -/
theorem claim_C8_witness :
    effWordcount ["a", "b"] ["a b"] [] "true" "false" = 2
    ∧ (prospectimo (some ["a"]) [] [] (Lexicon.mk [] [] []) { output := some "lex" }).1
        = some (.values (doLex (getMatchesRange (effTokens ["a"] [] [] (resolveOpts { output := some "lex" }).nGrams) (Lexicon.mk [] [] []) (resolveOpts { output := some "lex" }).min (resolveOpts { output := some "lex" }).max) (resolveOpts { output := some "lex" }).places (resolveOpts { output := some "lex" }).encoding (effWordcount ["a"] [] [] (resolveOpts { output := some "lex" }).nGrams (resolveOpts { output := some "lex" }).wcGrams)))
    ∧ calcLexLH [("x", 1, (1:ℚ))] 0 (.fin 9) "frequency" 1
        = roundPlaces (0 + (([("x", 1, (1:ℚ))] : List Match3).map fun e =>
            ((e.2.1 : ℚ) / ((1:ℕ) : ℚ)) * e.2.2).sum) (.fin 9) :=
  ⟨claim_C8.1 ["a", "b"] ["a b"] [] "true" "false" (by decide),
   claim_C8.2.2.1 ["a"] [] [] (Lexicon.mk [] [] []) { output := some "lex" }
     (by decide),
   claim_C8.2.2.2 [("x", 1, (1:ℚ))] 0 (.fin 9) 1 (by decide)⟩
